import Mathlib

/-!
Verification development for the avs-visualizer repository.

The two algorithmic components are embedded shallowly:

* the vector projector (TypeScript, `projectVectorsTo3D`): a pure function
  mapping each item's vector to a 3D position by block averaging; JavaScript
  numbers are modelled as exact rationals, and the non-finite result (NaN)
  of dividing an empty block's sum by a zero block size is modelled as
  `Option.none`;
* the dataset generator (Go backend, `generateVectorData`): ambient
  randomness (`math/rand`) and the wall clock are modelled as explicit
  read-only streams threaded through the computation by a cursor, and the
  Go runtime panics raised by `make` with a negative length are modelled by
  an `Option` result;
* the HTTP handler's query-parameter parsing (`handleVectorData`), with
  `strconv.Atoi` modelled as an exact integer parse (overflow elided).
-/

namespace AvsVisualizer

/-- The empty string, used as an out-of-bounds default for list lookups that
mirror always-in-bounds indexing in the source. -/
def noStr : String := ""

/-- Metadata record attached to each generated item (go-backend/main.go,
`metadata` map).  Numeric values are exact rationals; the RFC3339-formatted
`created` timestamp is kept as the underlying number of seconds. -/
structure Metadata where
  name : String
  type : String
  category : String
  rating : Int
  value : ℚ
  status : String
  priority : String
  region : String
  department : String
  created : Int
  isActive : Bool
  score : Int
  tags : List String
deriving Repr, DecidableEq

/-- A single vector item (types/vector-data.ts `VectorItem`,
go-backend/main.go `VectorItem`). -/
structure VectorItem where
  id : String
  key : String
  vector : List ℚ
  metadata : Metadata
  clusters : List String
deriving Repr, DecidableEq

/-- A vector item augmented with a projected 3D position
(types/vector-data.ts `ProcessedVectorItem`).  Each coordinate is `none`
when the JavaScript computation would produce the non-finite value NaN
(division of an empty block's sum by a zero block size). -/
structure ProcessedVectorItem where
  id : String
  key : String
  vector : List ℚ
  metadata : Metadata
  clusters : List String
  position : Option ℚ × Option ℚ × Option ℚ
  primaryCluster : Option String
deriving Repr, DecidableEq

/-! ## Vector projector (src/unnamed/part_002, `projectVectorsTo3D`) -/

/-- `const dimPerAxis = Math.floor(dimensions / 3)`. -/
def dimPerAxis (n : Nat) : Nat := n / 3

/-- `const xDims = dimPerAxis + (remainder > 0 ? 1 : 0)`. -/
def xDims (n : Nat) : Nat := dimPerAxis n + (if n % 3 > 0 then 1 else 0)

/-- `const yDims = dimPerAxis + (remainder > 1 ? 1 : 0)`. -/
def yDims (n : Nat) : Nat := dimPerAxis n + (if n % 3 > 1 then 1 else 0)

/-- `const zDims = dimPerAxis`. -/
def zDims (n : Nat) : Nat := dimPerAxis n

/-- `vector.slice(0, xDims)`. -/
def xBlock (v : List ℚ) : List ℚ := v.take (xDims v.length)

/-- `vector.slice(xDims, xDims + yDims)`. -/
def yBlock (v : List ℚ) : List ℚ := (v.drop (xDims v.length)).take (yDims v.length)

/-- `vector.slice(xDims + yDims)`. -/
def zBlock (v : List ℚ) : List ℚ := v.drop (xDims v.length + yDims v.length)

/-- `.reduce((sum, val) => sum + val, 0)`. -/
def listSum (v : List ℚ) : ℚ := v.foldl (fun sum val => sum + val) 0

/-- JavaScript division of a block sum by a block size: when the size is 0
the block is empty, its sum is 0, and `0 / 0` is NaN, modelled as `none`. -/
def safeDiv (a : ℚ) (b : Nat) : Option ℚ := if b = 0 then none else some (a / b)

/-- The unscaled `position` triple of the projector: the mean of each of the
three contiguous blocks of the vector. -/
def blockMeans (v : List ℚ) : Option ℚ × Option ℚ × Option ℚ :=
  (safeDiv (listSum (xBlock v)) (xDims v.length),
   safeDiv (listSum (yBlock v)) (yDims v.length),
   safeDiv (listSum (zBlock v)) (zDims v.length))

/-- `const scale = 5`. -/
def scaleFactor : ℚ := 5

/-- The body of the `data.map` in `projectVectorsTo3D`: compute the block
means, scale them by 5, spread the item's fields and set `primaryCluster`
to `item.clusters[0]` (that is, `none` when `clusters` is empty). -/
def projectItem (item : VectorItem) : ProcessedVectorItem :=
  let p := blockMeans item.vector
  { id := item.id
    key := item.key
    vector := item.vector
    metadata := item.metadata
    clusters := item.clusters
    position := (p.1.map (fun c => c * scaleFactor),
                 p.2.1.map (fun c => c * scaleFactor),
                 p.2.2.map (fun c => c * scaleFactor))
    primaryCluster := item.clusters.head? }

/-- `export function projectVectorsTo3D(data: VectorItem[])`. -/
def projectVectorsTo3D (data : List VectorItem) : List ProcessedVectorItem :=
  data.map projectItem

/-- A concrete metadata record used to build test items. -/
def defaultMetadata : Metadata :=
  { name := noStr, type := noStr, category := noStr, rating := 0, value := 0,
    status := noStr, priority := noStr, region := noStr, department := noStr,
    created := 0, isActive := false, score := 0, tags := [] }

/-- A concrete default vector item. -/
def defaultVectorItem : VectorItem :=
  { id := noStr, key := noStr, vector := [], metadata := defaultMetadata, clusters := [] }

/-- The concrete vector of the spec's worked example. -/
def specVector : List ℚ := [0, 0, 0, 3, 3, 3, 6, 6, 6]

/-- A concrete item carrying the spec's worked-example vector. -/
def specItem9 : VectorItem :=
  { id := "0", key := noStr, vector := specVector, metadata := defaultMetadata,
    clusters := ["Group A"] }

/-- A concrete item whose vector has length 2. -/
def shortItem : VectorItem :=
  { id := "0", key := noStr, vector := [1, 2], metadata := defaultMetadata,
    clusters := ["Group A"] }

/-- The three block lengths always sum to the vector length. -/
theorem xDims_add_yDims_add_zDims (n : Nat) : xDims n + yDims n + zDims n = n := by
  simp only [xDims, yDims, zDims, dimPerAxis]
  split <;> split <;> omega

/-- The first block length never exceeds the vector length. -/
theorem xDims_le (n : Nat) : xDims n ≤ n := by
  simp only [xDims, dimPerAxis]
  split <;> omega

/-- The first two block lengths together never exceed the vector length. -/
theorem xDims_add_yDims_le (n : Nat) : xDims n + yDims n ≤ n := by
  have h := xDims_add_yDims_add_zDims n
  omega

/-- Claim C1: for every vector of length `n ≥ 1` the projector splits the
dimensions into three contiguous non-overlapping blocks of lengths
`xDims n = n/3 + (n%3 > 0 ? 1 : 0)`, `yDims n = n/3 + (n%3 > 1 ? 1 : 0)`
and `zDims n = n/3`; the blocks concatenate back to the vector, the third
block's length `n - xDims n - yDims n` equals `zDims n`, and the concrete
splits for n = 9, 10, 11 are (3,3,3), (4,3,3), (4,4,3). -/
theorem projector_block_partition_sizes (v : List ℚ) (h : 1 ≤ v.length) :
    xBlock v ++ yBlock v ++ zBlock v = v ∧
    (xBlock v).length = xDims v.length ∧
    (yBlock v).length = yDims v.length ∧
    (zBlock v).length = v.length - xDims v.length - yDims v.length ∧
    v.length - xDims v.length - yDims v.length = zDims v.length ∧
    (xDims 9 = 3 ∧ yDims 9 = 3 ∧ zDims 9 = 3) ∧
    (xDims 10 = 4 ∧ yDims 10 = 3 ∧ zDims 10 = 3) ∧
    (xDims 11 = 4 ∧ yDims 11 = 4 ∧ zDims 11 = 3) := by
  have hsum := xDims_add_yDims_add_zDims v.length
  have hx := xDims_le v.length
  have hxy := xDims_add_yDims_le v.length
  refine ⟨?_, ?_, ?_, ?_, ?_, by decide, by decide, by decide⟩
  · unfold xBlock yBlock zBlock
    rw [← List.drop_drop, List.append_assoc, List.take_append_drop,
      List.take_append_drop]
  · unfold xBlock
    rw [List.length_take]
    omega
  · unfold yBlock
    rw [List.length_take, List.length_drop]
    omega
  · unfold zBlock
    rw [List.length_drop]
    omega
  · omega

/-- Witness for claim C1 at the concrete vector `[0]`. -/
theorem projector_block_partition_sizes_witness :
    1 ≤ ([(0 : ℚ)]).length ∧
    (xBlock [(0 : ℚ)] ++ yBlock [(0 : ℚ)] ++ zBlock [(0 : ℚ)] = [(0 : ℚ)] ∧
    (xBlock [(0 : ℚ)]).length = xDims ([(0 : ℚ)]).length ∧
    (yBlock [(0 : ℚ)]).length = yDims ([(0 : ℚ)]).length ∧
    (zBlock [(0 : ℚ)]).length =
      ([(0 : ℚ)]).length - xDims ([(0 : ℚ)]).length - yDims ([(0 : ℚ)]).length ∧
    ([(0 : ℚ)]).length - xDims ([(0 : ℚ)]).length - yDims ([(0 : ℚ)]).length =
      zDims ([(0 : ℚ)]).length ∧
    (xDims 9 = 3 ∧ yDims 9 = 3 ∧ zDims 9 = 3) ∧
    (xDims 10 = 4 ∧ yDims 10 = 3 ∧ zDims 10 = 3) ∧
    (xDims 11 = 4 ∧ yDims 11 = 4 ∧ zDims 11 = 3)) :=
  ⟨by decide, projector_block_partition_sizes [(0 : ℚ)] (by decide)⟩

/-- Counterexample to claim C2: the vector `[0,0,0,3,3,3,6,6,6]` has block
means `(0, 3, 6)` and scaled position `(0, 15, 30)`, not the claimed
`(1, 4, 7)` and `(5, 20, 35)`. -/
theorem projector_spec_vector_cx :
    blockMeans specVector = (some 0, some 3, some 6) ∧
    (projectItem specItem9).position = (some 0, some 15, some 30) ∧
    blockMeans specVector ≠ (some 1, some 4, some 7) ∧
    (projectItem specItem9).position ≠ (some 5, some 20, some 35) := by
  norm_num [blockMeans, safeDiv, listSum, xBlock, yBlock, zBlock, xDims, yDims,
    zDims, dimPerAxis, specVector, projectItem, specItem9, scaleFactor]

/-- Claim C2 (amended): projecting the single item with vector
`[0,0,0,3,3,3,6,6,6]` yields block means `(0, 4 - 1, 6)` = `(0, 3, 6)`
before scaling and position `(0, 15, 30)` after the ×5 scale. -/
theorem projector_spec_vector_projects :
    blockMeans specVector = (some 0, some 3, some 6) ∧
    (projectVectorsTo3D [specItem9]).map (fun p => p.position) =
      [(some 0, some 15, some 30)] := by
  norm_num [blockMeans, safeDiv, listSum, xBlock, yBlock, zBlock, xDims, yDims,
    zDims, dimPerAxis, specVector, projectItem, specItem9, scaleFactor,
    projectVectorsTo3D]

/-- Counterexample to claim C3: on an item whose vector has length 2 the
projector does not fail; it returns a (length-1) result whose position
contains the NaN marker in the z coordinate. -/
theorem projector_short_vector_cx :
    (projectVectorsTo3D [shortItem]).length = 1 ∧
    (projectVectorsTo3D [shortItem]).map (fun p => p.position) =
      [(some 5, some 10, none)] := by
  norm_num [blockMeans, safeDiv, listSum, xBlock, yBlock, zBlock, xDims, yDims,
    zDims, dimPerAxis, projectItem, shortItem, scaleFactor, projectVectorsTo3D]

/-- Claim C3 (amended): for every item whose vector has length `n < 3` the
projector does not raise any error: it returns the projected item, whose
position's z coordinate is the non-finite result (NaN, modelled `none`) of
dividing the empty z block's sum by the zero block size. -/
theorem projector_short_vector_silent_nan (item : VectorItem)
    (h : item.vector.length < 3) :
    projectVectorsTo3D [item] = [projectItem item] ∧
    (projectItem item).position.2.2 = none := by
  refine ⟨rfl, ?_⟩
  have hz : zDims item.vector.length = 0 := by
    simp only [zDims, dimPerAxis]
    omega
  simp only [projectItem, blockMeans, safeDiv, hz]
  simp

/-- Witness for claim C3 (amended) at the concrete length-2 item. -/
theorem projector_short_vector_silent_nan_witness :
    shortItem.vector.length < 3 ∧
    (projectVectorsTo3D [shortItem] = [projectItem shortItem] ∧
      (projectItem shortItem).position.2.2 = none) :=
  ⟨by decide, projector_short_vector_silent_nan shortItem (by decide)⟩

/-- Claim C8: the projector returns a list of the same length in the same
order, in which each output item keeps every field of the corresponding
input item (id, key, vector, metadata, clusters) unchanged and carries
`primaryCluster = clusters[0]` (`none` when `clusters` is empty); the
embedding is a pure function, so inputs are not mutated. -/
theorem projector_preserves_fields :
    (∀ data : List VectorItem, (projectVectorsTo3D data).length = data.length) ∧
    (∀ (data : List VectorItem) (i : Nat),
      (projectVectorsTo3D data).getD i (projectItem defaultVectorItem) =
        projectItem (data.getD i defaultVectorItem)) ∧
    (∀ item : VectorItem,
      (projectItem item).id = item.id ∧
      (projectItem item).key = item.key ∧
      (projectItem item).vector = item.vector ∧
      (projectItem item).metadata = item.metadata ∧
      (projectItem item).clusters = item.clusters ∧
      (projectItem item).primaryCluster = item.clusters.head?) := by
  refine ⟨?_, ?_, ?_⟩
  · intro data
    simp [projectVectorsTo3D]
  · intro data i
    simp only [projectVectorsTo3D, List.getD, List.getElem?_map]
    cases data[i]? <;> simp
  · intro item
    exact ⟨rfl, rfl, rfl, rfl, rfl, rfl⟩

/-! ## Dataset generator (src/go-backend/main.go)

Ambient state is made explicit: `Rng.ints` models the stream of raw draws
behind `rand.Intn` (reduced modulo the bound), `Rng.floats` the stream of
`rand.Float64()` results (rationals in `[0, 1)`), and `Rng.now` the wall
clock read by `time.Now()` (seconds).  A cursor `s : Nat` indexes the next
unconsumed draw and is threaded through in source order. -/

/-- Explicit model of the generator's ambient state: the `math/rand`
streams and the wall clock. -/
structure Rng where
  ints : Nat → Nat
  floats : Nat → ℚ
  now : Int

/-- The contract of `rand.Float64()`: every value lies in `[0, 1)`. -/
def FloatsOk (g : Rng) : Prop := ∀ i, 0 ≤ g.floats i ∧ g.floats i < 1

/-- `rand.Intn(k)`: a value in `[0, k)` (for the positive `k` used by the
code), consuming one draw. -/
def randIntn (g : Rng) (s k : Nat) : Nat × Nat := (g.ints s % k, s + 1)

/-- `rand.Float64()`: consumes one draw. -/
def randFloat (g : Rng) (s : Nat) : ℚ × Nat := (g.floats s, s + 1)

/-- `sampleClusters`: the fixed 10-name cluster vocabulary. -/
def sampleClusters : List String :=
  ["Group A", "Group B", "Group C", "Group D", "Group E",
   "Group F", "Group G", "Group H", "Group I", "Group J"]

/-- `sampleNames`. -/
def sampleNames : List String :=
  ["Alpha", "Beta", "Gamma", "Delta", "Epsilon", "Zeta", "Eta", "Theta",
   "Iota", "Kappa", "Lambda", "Mu", "Nu", "Xi", "Omicron", "Pi", "Rho",
   "Sigma", "Tau", "Upsilon", "Phi", "Chi", "Psi", "Omega"]

/-- `sampleAttributes`. -/
def sampleAttributes : List String :=
  ["Small", "Medium", "Large", "Extra Large", "Compact", "Expanded", "Basic",
   "Advanced", "Premium", "Standard", "Custom", "Regular", "Special",
   "Limited", "Unlimited"]

/-- `sampleCategories`. -/
def sampleCategories : List String :=
  ["Primary", "Secondary", "Tertiary", "Quaternary", "Quinary", "Senary",
   "Septenary", "Octonary", "Nonary", "Denary"]

/-- `sampleTypes`. -/
def sampleTypes : List String :=
  ["Type A", "Type B", "Type C", "Type D", "Type E", "Type F", "Type G",
   "Type H", "Type I", "Type J"]

/-- `sampleRatings`. -/
def sampleRatings : List Int := [1, 2, 3, 4, 5]

/-- `sampleStatuses`. -/
def sampleStatuses : List String :=
  ["Active", "Inactive", "Pending", "Archived", "Draft"]

/-- `samplePriorities`. -/
def samplePriorities : List String := ["Low", "Medium", "High", "Critical"]

/-- `sampleRegions`. -/
def sampleRegions : List String := ["North", "South", "East", "West", "Central"]

/-- `sampleDepartments`. -/
def sampleDepartments : List String :=
  ["Sales", "Marketing", "Engineering", "Support", "Finance", "HR"]

/-- `getRandomItem` on a `[]string` (spec note: one typed draw function per
vocabulary element type): `v[rand.Intn(len(v))]`. -/
def getRandomItemStr (g : Rng) (s : Nat) (items : List String) : String × Nat :=
  let (i, s1) := randIntn g s items.length
  (items.getD i noStr, s1)

/-- `getRandomItem` on an `[]int`: `v[rand.Intn(len(v))]`. -/
def getRandomItemInt (g : Rng) (s : Nat) (items : List Int) : Int × Nat :=
  let (i, s1) := randIntn g s items.length
  (items.getD i 0, s1)

/-- One Fisher-Yates step: `shuffled[i], shuffled[j] = shuffled[j], shuffled[i]`.
Both indices are in bounds at every use in the shuffle loop. -/
def swapList (l : List String) (i j : Nat) : List String :=
  (l.set i (l.getD j noStr)).set j (l.getD i noStr)

/-- The Fisher-Yates loop of `getRandomItems`:
`for i := len(shuffled) - 1; i > 0; i-- { j := rand.Intn(i + 1); swap }`,
written as recursion on the loop variable. -/
def shuffleGo (g : Rng) : Nat → List String → Nat → List String × Nat
  | 0, l, s => (l, s)
  | Nat.succ i, l, s =>
    let (j, s1) := randIntn g s (i + 2)
    shuffleGo g i (swapList l (i + 1) j) s1

/-- `getRandomItems(items, minItems, maxItems)`: draw
`numItems = rand.Intn(maxItems-minItems+1) + minItems`, Fisher-Yates
shuffle a copy of `items`, and return the first `numItems` entries. -/
def getRandomItems (g : Rng) (s : Nat) (items : List String)
    (minItems maxItems : Nat) : List String × Nat :=
  let (r, s1) := randIntn g s (maxItems - minItems + 1)
  let numItems := r + minItems
  let (shuffled, s2) := shuffleGo g (items.length - 1) items s1
  (shuffled.take numItems, s2)

/-- The 62-character alphabet of `generateRandomKey`. -/
def keyChars : List Char :=
  "ABCDEFGHIJKLMNOPQRSTUVWXYZabcdefghijklmnopqrstuvwxyz0123456789".toList

/-- `generateRandomKey(length)`: `length` characters drawn by
`chars[rand.Intn(len(chars))]`, consumed left to right. -/
def generateRandomKey (g : Rng) : Nat → Nat → String × Nat
  | 0, s => (noStr, s)
  | Nat.succ n, s =>
    let (i, s1) := randIntn g s keyChars.length
    let (rest, s2) := generateRandomKey g n s1
    (String.mk (keyChars.getD i 'A' :: rest.toList), s2)

/-- Truncation toward zero, as Go's `int(...)` conversion. -/
def ratTrunc (q : ℚ) : Int := q.num / (q.den : Int)

/-- The `factor` loop of `getRandomNumber`: ten to the `decimals`. -/
def pow10 : Nat → ℚ
  | 0 => 1
  | Nat.succ n => pow10 n * 10

/-- `getRandomNumber(min, max, decimals)`:
`value := min + rand.Float64()*(max-min)` rounded by truncation to
`decimals` decimal places. -/
def getRandomNumber (g : Rng) (s : Nat) (lo hi : ℚ) (decimals : Nat) : ℚ × Nat :=
  let (f, s1) := randFloat g s
  let value := lo + f * (hi - lo)
  let factor := pow10 decimals
  ((ratTrunc (value * factor) : ℚ) / factor, s1)

/-- One row of `clusterCenters`: `dimensions` components, each
`rand.Float64()*2 - 1`, consumed left to right. -/
def genCenterRow (g : Rng) (d s : Nat) : List ℚ × Nat :=
  ((List.range d).map (fun j => g.floats (s + j) * 2 - 1), s + d)

/-- The outer loop building one center row per cluster name. -/
def genCenters (g : Rng) (d : Nat) : Nat → Nat → List (List ℚ) × Nat
  | 0, s => ([], s)
  | Nat.succ n, s =>
    let (row, s1) := genCenterRow g d s
    let (rest, s2) := genCenters g d n s1
    (row :: rest, s2)

/-- `clusterCenters := make([][]float64, len(sampleClusters))` filled with
uniform components in `[-1, 1)`. -/
def clusterCentersGen (g : Rng) (d s : Nat) : List (List ℚ) × Nat :=
  genCenters g d sampleClusters.length s

/-- The primary-cluster lookup loop:
`primaryClusterIdx := -1; for idx, cluster := range sampleClusters { if
cluster == clusters[0] { primaryClusterIdx = idx; break } }`. -/
def findClusterIdx (c : String) : Int :=
  match sampleClusters.findIdx? (fun x => x == c) with
  | some i => (i : Int)
  | none => -1

/-- `vector := make([]float64, dimensions)` (zero-initialised) filled over
`range center` with `center[j] + (rand.Float64()*0.5 - 0.25)`. -/
def genNoiseVector (g : Rng) (s : Nat) (center : List ℚ) (d : Nat) :
    List ℚ × Nat :=
  ((List.range d).map (fun j =>
      if j < center.length then
        center.getD j 0 + (g.floats (s + j) * 0.5 - 0.25)
      else 0),
   s + center.length)

/-- The `metadata` map of one item, drawn field by field in source order. -/
def genMetadata (g : Rng) (s : Nat) : Metadata × Nat :=
  let (attr, s1) := getRandomItemStr g s sampleAttributes
  let (nm, s2) := getRandomItemStr g s1 sampleNames
  let (ty, s3) := getRandomItemStr g s2 sampleTypes
  let (cat, s4) := getRandomItemStr g s3 sampleCategories
  let (rat, s5) := getRandomItemInt g s4 sampleRatings
  let (val, s6) := getRandomNumber g s5 10 1000 2
  let (st, s7) := getRandomItemStr g s6 sampleStatuses
  let (pri, s8) := getRandomItemStr g s7 samplePriorities
  let (reg, s9) := getRandomItemStr g s8 sampleRegions
  let (dep, s10) := getRandomItemStr g s9 sampleDepartments
  let (days, s11) := randIntn g s10 365
  let (act, s12) := randFloat g s11
  let (sc, s13) := randIntn g s12 100
  let (tags, s14) := getRandomItems g s13 sampleAttributes 0 5
  ({ name := attr ++ " " ++ nm
     type := ty
     category := cat
     rating := rat
     value := val
     status := st
     priority := pri
     region := reg
     department := dep
     created := g.now - (days : Int) * 86400
     isActive := decide (act > 0.2)
     score := (sc : Int) + 1
     tags := tags }, s14)

/-- The body of the generation loop for item `i`: clusters, primary-center
lookup, noisy vector, metadata, id and key.  When the lookup fails Go would
panic on the `-1` index; the branch is unreachable (see the C9 theorem) and
is modelled with an empty center. -/
def generateItem (g : Rng) (centers : List (List ℚ)) (d : Nat) (i : Nat)
    (s : Nat) : VectorItem × Nat :=
  let clusters := (getRandomItems g s sampleClusters 1 3).1
  let s1 := (getRandomItems g s sampleClusters 1 3).2
  let primaryClusterIdx := findClusterIdx (clusters.getD 0 noStr)
  let center := if primaryClusterIdx < 0 then [] else centers.getD primaryClusterIdx.toNat []
  let vector := (genNoiseVector g s1 center d).1
  let s2 := (genNoiseVector g s1 center d).2
  let metadata := (genMetadata g s2).1
  let s3 := (genMetadata g s2).2
  let key := (generateRandomKey g 8 s3).1
  let s4 := (generateRandomKey g 8 s3).2
  ({ id := toString i
     key := key
     vector := vector
     metadata := metadata
     clusters := clusters }, s4)

/-- `for i := 0; i < limit; i++`: the remaining count and the current index
are threaded separately so the produced ids stay sequential. -/
def genLoop (g : Rng) (centers : List (List ℚ)) (d : Nat) :
    Nat → Nat → Nat → List VectorItem × Nat
  | 0, _, s => ([], s)
  | Nat.succ c, i, s =>
    let (item, s1) := generateItem g centers d i s
    let (rest, s2) := genLoop g centers d c (i + 1) s1
    (item :: rest, s2)

/-- `generateVectorData(limit, dimensions)`.  Go's `make` panics on a
negative length or capacity (`make([]float64, dimensions)` and
`make([]VectorItem, 0, limit)`), modelled as `none`; otherwise the cluster
centers are built and `limit` items are generated in order. -/
def generateVectorData (g : Rng) (limit dimensions : Int) :
    Option (List VectorItem) :=
  if limit < 0 ∨ dimensions < 0 then none
  else
    let (centers, s1) := clusterCentersGen g dimensions.toNat 0
    some (genLoop g centers dimensions.toNat limit.toNat 0 s1).1

/-- The center row against which an item's vector was generated, recovered
from the item's own primary cluster name. -/
def centerFor (centers : List (List ℚ)) (item : VectorItem) : List ℚ :=
  let idx := findClusterIdx (item.clusters.getD 0 noStr)
  if idx < 0 then [] else centers.getD idx.toNat []

/-- The primary center row of an item of `generateVectorData g _ dimensions`. -/
def primaryCenterRow (g : Rng) (dimensions : Int) (item : VectorItem) : List ℚ :=
  centerFor (clusterCentersGen g dimensions.toNat 0).1 item

/-- A concrete ambient state: all draws zero, clock at zero. -/
def g0 : Rng := { ints := fun _ => 0, floats := fun _ => 0, now := 0 }

/-! ## Permutation facts about the Fisher-Yates shuffle -/

/-- Moving the value at an in-bounds position to the front while writing a
new value there is a permutation of consing that value. -/
theorem get_cons_set_perm (t : List String) :
    ∀ (k : Nat) (hk : k < t.length) (a : String),
      List.Perm (t.get ⟨k, hk⟩ :: t.set k a) (a :: t) := by
  induction t with
  | nil => intro k hk a; simp at hk
  | cons b u ih =>
    intro k hk a
    cases k with
    | zero => simpa using List.Perm.swap a b u
    | succ m =>
      have hm : m < u.length := by simpa using hk
      refine List.Perm.trans (List.Perm.swap b (u.get ⟨m, hm⟩) (u.set m a)) ?_
      refine List.Perm.trans ((ih m hm a).cons b) ?_
      exact List.Perm.swap a b u

/-- Exchanging the values at two in-bounds positions is a permutation. -/
theorem set_set_perm (l : List String) :
    ∀ (i j : Nat) (hi : i < l.length) (hj : j < l.length),
      List.Perm ((l.set i (l.get ⟨j, hj⟩)).set j (l.get ⟨i, hi⟩)) l := by
  induction l with
  | nil => intro i j hi; simp at hi
  | cons a t ih =>
    intro i j hi hj
    cases i with
    | zero =>
      cases j with
      | zero => simp
      | succ m =>
        have hm : m < t.length := by simpa using hj
        simpa using get_cons_set_perm t m hm a
    | succ k =>
      have hk : k < t.length := by simpa using hi
      cases j with
      | zero => simpa using get_cons_set_perm t k hk a
      | succ m =>
        have hm : m < t.length := by simpa using hj
        simpa using (ih k m hk hm).cons a

/-- A `swapList` step with in-bounds indices is a permutation. -/
theorem swapList_perm (l : List String) (i j : Nat)
    (hi : i < l.length) (hj : j < l.length) :
    List.Perm (swapList l i j) l := by
  unfold swapList
  rw [List.getD_eq_getElem l noStr hj, List.getD_eq_getElem l noStr hi]
  simpa using set_set_perm l i j hi hj

/-- The whole Fisher-Yates loop is a permutation of its input. -/
theorem shuffleGo_perm (g : Rng) :
    ∀ (n : Nat) (l : List String) (s : Nat), n < l.length →
      List.Perm (shuffleGo g n l s).1 l := by
  intro n
  induction n with
  | zero => intro l s _; simp [shuffleGo]
  | succ i ih =>
    intro l s hn
    have hi1 : i + 1 < l.length := hn
    have hj : g.ints s % (i + 2) < l.length := by
      have := Nat.mod_lt (g.ints s) (y := i + 2) (by omega)
      omega
    have hswap := swapList_perm l (i + 1) (g.ints s % (i + 2)) hi1 hj
    have hlen : (swapList l (i + 1) (g.ints s % (i + 2))).length = l.length :=
      hswap.length_eq
    have hrec := ih (swapList l (i + 1) (g.ints s % (i + 2))) (s + 1) (by omega)
    exact (by simpa [shuffleGo, randIntn] using hrec.trans hswap)

/-- Specification of `getRandomItems` on a duplicate-free vocabulary: the
result has between `minItems` and `maxItems` entries, has no duplicates and
draws all entries from the vocabulary. -/
theorem getRandomItems_spec (g : Rng) (s : Nat) (items : List String)
    (minItems maxItems : Nat) (hnd : items.Nodup) (hne : 1 ≤ items.length)
    (hmm : minItems ≤ maxItems) (hmax : maxItems ≤ items.length) :
    minItems ≤ (getRandomItems g s items minItems maxItems).1.length ∧
    (getRandomItems g s items minItems maxItems).1.length ≤ maxItems ∧
    (getRandomItems g s items minItems maxItems).1.Nodup ∧
    ∀ c ∈ (getRandomItems g s items minItems maxItems).1, c ∈ items := by
  have hperm : List.Perm (shuffleGo g (items.length - 1) items (s + 1)).1 items :=
    shuffleGo_perm g (items.length - 1) items (s + 1) (by omega)
  have hr : g.ints s % (maxItems - minItems + 1) < maxItems - minItems + 1 :=
    Nat.mod_lt _ (by omega)
  have hlen : (shuffleGo g (items.length - 1) items (s + 1)).1.length =
      items.length := hperm.length_eq
  simp only [getRandomItems, randIntn]
  refine ⟨?_, ?_, ?_, ?_⟩
  · rw [List.length_take]
    omega
  · rw [List.length_take]
    omega
  · exact ((hperm.nodup_iff).mpr hnd).sublist (List.take_sublist _ _)
  · intro c hc
    exact hperm.subset (List.mem_of_mem_take hc)

/-! ## Structural facts about the generator -/

/-- Every center row has exactly `d` components. -/
theorem genCenterRow_length (g : Rng) (d s : Nat) :
    (genCenterRow g d s).1.length = d := by
  simp [genCenterRow]

/-- Every row produced by the center loop has exactly `d` components. -/
theorem genCenters_row_length (g : Rng) (d : Nat) :
    ∀ (n s : Nat), ∀ row ∈ (genCenters g d n s).1, row.length = d := by
  intro n
  induction n with
  | zero => intro s row hrow; simp [genCenters] at hrow
  | succ m ih =>
    intro s row hrow
    simp only [genCenters, List.mem_cons] at hrow
    rcases hrow with h | h
    · rw [h]; exact genCenterRow_length g d s
    · exact ih _ row h

/-- With the `rand.Float64` contract, every center component lies in
`[-1, 1)`. -/
theorem genCenterRow_bounds (g : Rng) (hf : FloatsOk g) (d s : Nat) :
    ∀ q ∈ (genCenterRow g d s).1, -1 ≤ q ∧ q < 1 := by
  intro q hq
  simp only [genCenterRow, List.mem_map, List.mem_range] at hq
  obtain ⟨j, _, rfl⟩ := hq
  have := hf (s + j)
  constructor <;> nlinarith [this.1, this.2]

/-- With the `rand.Float64` contract, every component of every center row
lies in `[-1, 1)`. -/
theorem genCenters_bounds (g : Rng) (hf : FloatsOk g) (d : Nat) :
    ∀ (n s : Nat), ∀ row ∈ (genCenters g d n s).1, ∀ q ∈ row, -1 ≤ q ∧ q < 1 := by
  intro n
  induction n with
  | zero => intro s row hrow; simp [genCenters] at hrow
  | succ m ih =>
    intro s row hrow
    simp only [genCenters, List.mem_cons] at hrow
    rcases hrow with h | h
    · rw [h]; exact genCenterRow_bounds g hf d s
    · exact ih _ row h

/-- An out-of-vocabulary-safe bound: any component read from any row of a
bounded center table (with out-of-range reads defaulting to 0) lies in
`[-1, 1]`. -/
theorem center_read_bounds (centers : List (List ℚ))
    (hcb : ∀ row ∈ centers, ∀ q ∈ row, -1 ≤ q ∧ q < 1)
    (center : List ℚ)
    (hc : center = [] ∨ ∃ idx, center = centers.getD idx []) (k : Nat) :
    -1 ≤ center.getD k 0 ∧ center.getD k 0 ≤ 1 := by
  have hrow : ∀ q ∈ center, -1 ≤ q ∧ q < 1 := by
    rcases hc with rfl | ⟨idx, rfl⟩
    · intro q hq; simp at hq
    · by_cases hidx : idx < centers.length
      · intro q hq
        rw [List.getD_eq_getElem centers [] hidx] at hq
        exact hcb _ (List.getElem_mem hidx) q hq
      · intro q hq
        rw [List.getD_eq_default centers [] (by omega)] at hq
        simp at hq
  by_cases hk : k < center.length
  · rw [List.getD_eq_getElem center 0 hk]
    have := hrow _ (List.getElem_mem hk)
    exact ⟨this.1, le_of_lt this.2⟩
  · rw [List.getD_eq_default center 0 (by omega)]
    norm_num

/-- The generated vector always has exactly `d` components. -/
theorem genNoiseVector_length (g : Rng) (s : Nat) (center : List ℚ) (d : Nat) :
    (genNoiseVector g s center d).1.length = d := by
  simp [genNoiseVector]

/-- Each generated vector component is the corresponding center component
plus a noise term in `[-0.25, 0.25)` (components beyond the center's length
stay at the zero initialisation of `make`, with zero noise). -/
theorem genNoiseVector_form (g : Rng) (hf : FloatsOk g) (s : Nat)
    (center : List ℚ) (d k : Nat) (hk : k < d) :
    ∃ e, -(1/4 : ℚ) ≤ e ∧ e < 1/4 ∧
      (genNoiseVector g s center d).1.getD k 0 = center.getD k 0 + e := by
  have hval : (genNoiseVector g s center d).1.getD k 0 =
      (if k < center.length then
        center.getD k 0 + (g.floats (s + k) * 0.5 - 0.25) else 0) := by
    have hk2 : k < ((List.range d).map (fun j =>
        if j < center.length then
          center.getD j 0 + (g.floats (s + j) * 0.5 - 0.25)
        else 0)).length := by simpa using hk
    simp only [genNoiseVector]
    rw [List.getD_eq_getElem _ 0 hk2]
    simp
  by_cases hkc : k < center.length
  · refine ⟨g.floats (s + k) * 0.5 - 0.25, ?_, ?_, ?_⟩
    · have := (hf (s + k)).1; nlinarith
    · have := (hf (s + k)).2; nlinarith
    · rw [hval, if_pos hkc]
  · refine ⟨0, by norm_num, by norm_num, ?_⟩
    rw [hval, if_neg hkc, List.getD_eq_default center 0 (by omega)]
    norm_num

/-- If a name occurs in a list, the first-index search of the Go loop finds
an in-bounds index. -/
theorem findIdx_of_mem (l : List String) (c : String) (hc : c ∈ l) :
    ∃ i, l.findIdx? (fun x => x == c) = some i ∧ i < l.length := by
  induction l with
  | nil => simp at hc
  | cons a t ih =>
    by_cases ha : a = c
    · exact ⟨0, by simp [List.findIdx?_cons, ha], by simp⟩
    · have hct : c ∈ t := by
        rcases List.mem_cons.mp hc with h | h
        · exact absurd h.symm ha
        · exact h
      obtain ⟨i, hi, hlt⟩ := ih hct
      refine ⟨i + 1, ?_, by simpa using Nat.succ_lt_succ hlt⟩
      have hba : (a == c) = false := beq_false_of_ne ha
      simp [List.findIdx?_cons, hba, hi]

/-- The primary-cluster lookup succeeds exactly on the vocabulary. -/
theorem findClusterIdx_of_mem (c : String) (hc : c ∈ sampleClusters) :
    ∃ i : Nat, findClusterIdx c = (i : Int) ∧ i < sampleClusters.length := by
  obtain ⟨i, hi, hlt⟩ := findIdx_of_mem sampleClusters c hc
  exact ⟨i, by simp [findClusterIdx, hi], hlt⟩

/-- An item's cluster list is exactly the `getRandomItems` draw made first
in the loop body. -/
theorem generateItem_clusters (g : Rng) (centers : List (List ℚ)) (d i s : Nat) :
    (generateItem g centers d i s).1.clusters =
      (getRandomItems g s sampleClusters 1 3).1 := by
  simp only [generateItem]

/-- An item's id is its ordinal position rendered by `strconv.Itoa`. -/
theorem generateItem_id (g : Rng) (centers : List (List ℚ)) (d i s : Nat) :
    (generateItem g centers d i s).1.id = toString i := rfl

/-- An item's vector has exactly `d` components. -/
theorem generateItem_vector_length (g : Rng) (centers : List (List ℚ))
    (d i s : Nat) :
    (generateItem g centers d i s).1.vector.length = d :=
  genNoiseVector_length g _ _ d

/-- Each component of an item's vector is the matching component of the
item's own primary-cluster center row plus noise in `[-0.25, 0.25)`, and
that center component lies in `[-1, 1]`. -/
theorem generateItem_vector_form (g : Rng) (hf : FloatsOk g)
    (centers : List (List ℚ))
    (hcb : ∀ row ∈ centers, ∀ q ∈ row, -1 ≤ q ∧ q < 1)
    (d i s k : Nat) (hk : k < d) :
    ∃ e, -(1/4 : ℚ) ≤ e ∧ e < 1/4 ∧
      (generateItem g centers d i s).1.vector.getD k 0 =
        (centerFor centers (generateItem g centers d i s).1).getD k 0 + e ∧
      -1 ≤ (centerFor centers (generateItem g centers d i s).1).getD k 0 ∧
      (centerFor centers (generateItem g centers d i s).1).getD k 0 ≤ 1 := by
  have hcenter : centerFor centers (generateItem g centers d i s).1 =
      (if findClusterIdx ((getRandomItems g s sampleClusters 1 3).1.getD 0 noStr) < 0
       then []
       else centers.getD
         (findClusterIdx
           ((getRandomItems g s sampleClusters 1 3).1.getD 0 noStr)).toNat []) := by
    simp only [centerFor, generateItem_clusters]
  have hvec : (generateItem g centers d i s).1.vector =
      (genNoiseVector g (getRandomItems g s sampleClusters 1 3).2
        (centerFor centers (generateItem g centers d i s).1) d).1 := by
    rw [hcenter]
    simp only [generateItem]
  have hc : centerFor centers (generateItem g centers d i s).1 = [] ∨
      ∃ idx, centerFor centers (generateItem g centers d i s).1 =
        centers.getD idx [] := by
    rw [hcenter]
    by_cases hneg :
        findClusterIdx ((getRandomItems g s sampleClusters 1 3).1.getD 0 noStr) < 0
    · left
      rw [if_pos hneg]
    · right
      exact ⟨_, by rw [if_neg hneg]⟩
  have hb := center_read_bounds centers hcb _ hc k
  obtain ⟨e, h1, h2, h3⟩ := genNoiseVector_form g hf
    (getRandomItems g s sampleClusters 1 3).2
    (centerFor centers (generateItem g centers d i s).1) d k hk
  rw [← hvec] at h3
  exact ⟨e, h1, h2, h3, hb.1, hb.2⟩

/-- The generation loop produces exactly as many items as requested. -/
theorem genLoop_length (g : Rng) (centers : List (List ℚ)) (d : Nat) :
    ∀ (c i s : Nat), (genLoop g centers d c i s).1.length = c := by
  intro c
  induction c with
  | zero => intro i s; simp [genLoop]
  | succ m ih => intro i s; simp [genLoop, ih]

/-- Every item of the generation loop is an output of the loop body. -/
theorem genLoop_mem (g : Rng) (centers : List (List ℚ)) (d : Nat) :
    ∀ (c i s : Nat), ∀ item ∈ (genLoop g centers d c i s).1,
      ∃ j t, item = (generateItem g centers d j t).1 := by
  intro c
  induction c with
  | zero => intro i s item hitem; simp [genLoop] at hitem
  | succ m ih =>
    intro i s item hitem
    simp only [genLoop, List.mem_cons] at hitem
    rcases hitem with h | h
    · exact ⟨i, s, h⟩
    · exact ih _ _ item h

/-- The item at position `k` of the generation loop carries the id of its
ordinal position. -/
theorem genLoop_getD_id (g : Rng) (centers : List (List ℚ)) (d : Nat) :
    ∀ (c i s k : Nat), k < c →
      ((genLoop g centers d c i s).1.getD k defaultVectorItem).id =
        toString (i + k) := by
  intro c
  induction c with
  | zero => intro i s k hk; omega
  | succ m ih =>
    intro i s k hk
    cases k with
    | zero =>
      simpa [genLoop] using generateItem_id g centers d i s
    | succ k2 =>
      have := ih (i + 1) ((generateItem g centers d i s).2) k2 (by omega)
      simp only [genLoop, List.getD_cons_succ]
      rw [this]
      congr 1
      omega

/-- With non-negative arguments `generateVectorData` returns the loop's
items over the freshly generated centers. -/
theorem generateVectorData_eq (g : Rng) (limit dimensions : Int)
    (hl : 0 ≤ limit) (hd : 0 ≤ dimensions) :
    generateVectorData g limit dimensions =
      some (genLoop g (clusterCentersGen g dimensions.toNat 0).1
        dimensions.toNat limit.toNat 0
        (clusterCentersGen g dimensions.toNat 0).2).1 := by
  unfold generateVectorData
  rw [if_neg (by omega)]

/-- With a negative argument Go's `make` panics. -/
theorem generateVectorData_panic (g : Rng) (limit dimensions : Int)
    (h : limit < 0 ∨ dimensions < 0) :
    generateVectorData g limit dimensions = none := by
  unfold generateVectorData
  rw [if_pos h]

/-- Claim C4: for every count `≥ 0` and dimensionality `≥ 1` the generator
returns exactly `count` items in generation order (each item's id is its
sequential ordinal position), each with a vector of length exactly the
requested dimensionality; in particular `generate(0, 100)` returns an empty
sequence without error. -/
theorem generator_count_and_lengths (g : Rng) (limit dimensions : Int)
    (hl : 0 ≤ limit) (hd : 1 ≤ dimensions) :
    ∃ out, generateVectorData g limit dimensions = some out ∧
      out.length = limit.toNat ∧
      (∀ item ∈ out, item.vector.length = dimensions.toNat) ∧
      (∀ k, k < out.length → (out.getD k defaultVectorItem).id = toString k) ∧
      generateVectorData g 0 100 = some [] := by
  refine ⟨_, generateVectorData_eq g limit dimensions hl (by omega), ?_, ?_, ?_, ?_⟩
  · exact genLoop_length g _ _ limit.toNat 0 _
  · intro item hitem
    obtain ⟨j, t, rfl⟩ := genLoop_mem g _ _ limit.toNat 0 _ item hitem
    exact generateItem_vector_length g _ dimensions.toNat j t
  · intro k hk
    rw [genLoop_length] at hk
    have := genLoop_getD_id g (clusterCentersGen g dimensions.toNat 0).1
      dimensions.toNat limit.toNat 0 (clusterCentersGen g dimensions.toNat 0).2 k hk
    simpa using this
  · rw [generateVectorData_eq g 0 100 (by norm_num) (by norm_num)]
    rfl

/-- Witness for claim C4 at count 1, dimensionality 3, all-zero draws. -/
theorem generator_count_and_lengths_witness :
    0 ≤ (1 : Int) ∧ 1 ≤ (3 : Int) ∧
    (∃ out, generateVectorData g0 1 3 = some out ∧
      out.length = (1 : Int).toNat ∧
      (∀ item ∈ out, item.vector.length = (3 : Int).toNat) ∧
      (∀ k, k < out.length → (out.getD k defaultVectorItem).id = toString k) ∧
      generateVectorData g0 0 100 = some []) :=
  ⟨by norm_num, by norm_num,
    generator_count_and_lengths g0 1 3 (by norm_num) (by norm_num)⟩

/-- Counterexample to claim C5: at the non-positive count 0 (dimensions
100) the generator returns a result, the empty list, instead of failing;
at dimensionality 0 (count 5) it also returns a result, of 5 items. -/
theorem generator_no_invalid_argument_cx :
    generateVectorData g0 0 100 = some [] ∧
    (∃ out, generateVectorData g0 5 0 = some out ∧ out.length = 5) := by
  constructor
  · rw [generateVectorData_eq g0 0 100 (by norm_num) (by norm_num)]
    rfl
  · refine ⟨_, generateVectorData_eq g0 5 0 (by norm_num) (by norm_num), ?_⟩
    rw [genLoop_length]
    rfl

/-- Claim C5 (amended): the generator validates nothing: count 0 returns
the empty list, dimensionality 0 returns items with empty vectors, and a
negative count or dimensionality makes Go's `make` panic at runtime
(modelled `none`); no InvalidArgument error exists. -/
theorem generator_no_validation (g : Rng) (limit dimensions : Int)
    (hl : 0 ≤ limit) (hd : 0 ≤ dimensions) :
    generateVectorData g 0 dimensions = some [] ∧
    (∃ out, generateVectorData g limit 0 = some out ∧
      out.length = limit.toNat ∧ ∀ item ∈ out, item.vector = []) ∧
    generateVectorData g (-1) dimensions = none ∧
    generateVectorData g limit (-1) = none := by
  refine ⟨?_, ?_, ?_, ?_⟩
  · rw [generateVectorData_eq g 0 dimensions (by norm_num) hd]
    rfl
  · refine ⟨_, generateVectorData_eq g limit 0 hl (by norm_num),
      genLoop_length g _ _ limit.toNat 0 _, ?_⟩
    intro item hitem
    obtain ⟨j, t, rfl⟩ := genLoop_mem g _ _ limit.toNat 0 _ item hitem
    have hlen := generateItem_vector_length g (clusterCentersGen g (0 : Int).toNat 0).1
      (0 : Int).toNat j t
    exact List.eq_nil_of_length_eq_zero hlen
  · exact generateVectorData_panic g _ _ (Or.inl (by norm_num))
  · exact generateVectorData_panic g _ _ (Or.inr (by norm_num))

/-- Witness for claim C5 (amended) at count 2, dimensionality 7. -/
theorem generator_no_validation_witness :
    0 ≤ (2 : Int) ∧ 0 ≤ (7 : Int) ∧
    (generateVectorData g0 0 7 = some [] ∧
    (∃ out, generateVectorData g0 2 0 = some out ∧
      out.length = (2 : Int).toNat ∧ ∀ item ∈ out, item.vector = []) ∧
    generateVectorData g0 (-1) 7 = none ∧
    generateVectorData g0 2 (-1) = none) :=
  ⟨by norm_num, by norm_num,
    generator_no_validation g0 2 7 (by norm_num) (by norm_num)⟩

/-- Claim C6: every generated item carries between 1 and 3 clusters,
pairwise distinct, all drawn from the fixed 10-name vocabulary. -/
theorem generator_clusters_distinct (g : Rng) (limit dimensions : Int)
    (hl : 0 ≤ limit) (hd : 0 ≤ dimensions) :
    ∃ out, generateVectorData g limit dimensions = some out ∧
      ∀ item ∈ out, 1 ≤ item.clusters.length ∧ item.clusters.length ≤ 3 ∧
        item.clusters.Nodup ∧ ∀ c ∈ item.clusters, c ∈ sampleClusters := by
  refine ⟨_, generateVectorData_eq g limit dimensions hl hd, ?_⟩
  intro item hitem
  obtain ⟨j, t, rfl⟩ := genLoop_mem g _ _ limit.toNat 0 _ item hitem
  rw [generateItem_clusters]
  have hspec := getRandomItems_spec g t sampleClusters 1 3 (by decide) (by decide)
    (by norm_num) (by decide)
  exact ⟨hspec.1, hspec.2.1, hspec.2.2.1, hspec.2.2.2⟩

/-- Witness for claim C6 at count 2, dimensionality 4, all-zero draws. -/
theorem generator_clusters_distinct_witness :
    0 ≤ (2 : Int) ∧ 0 ≤ (4 : Int) ∧
    (∃ out, generateVectorData g0 2 4 = some out ∧
      ∀ item ∈ out, 1 ≤ item.clusters.length ∧ item.clusters.length ≤ 3 ∧
        item.clusters.Nodup ∧ ∀ c ∈ item.clusters, c ∈ sampleClusters) :=
  ⟨by norm_num, by norm_num,
    generator_clusters_distinct g0 2 4 (by norm_num) (by norm_num)⟩

/-- Claim C7: under the `rand.Float64` contract, every component of every
generated item's vector equals the matching component of the item's own
primary-cluster center row (which lies in `[-1, 1]`) plus an independent
noise term in `[-0.25, 0.25]`, and therefore lies within `[-1.25, 1.25]`. -/
theorem generator_vector_noise_bounds (g : Rng) (limit dimensions : Int)
    (hf : FloatsOk g) (hl : 0 ≤ limit) (hd : 0 ≤ dimensions) :
    ∃ out, generateVectorData g limit dimensions = some out ∧
      ∀ item ∈ out, ∀ k, k < item.vector.length →
        ∃ e, -(1/4 : ℚ) ≤ e ∧ e ≤ 1/4 ∧
          -1 ≤ (primaryCenterRow g dimensions item).getD k 0 ∧
          (primaryCenterRow g dimensions item).getD k 0 ≤ 1 ∧
          item.vector.getD k 0 = (primaryCenterRow g dimensions item).getD k 0 + e ∧
          -(5/4 : ℚ) ≤ item.vector.getD k 0 ∧ item.vector.getD k 0 ≤ 5/4 := by
  refine ⟨_, generateVectorData_eq g limit dimensions hl hd, ?_⟩
  intro item hitem k hk
  obtain ⟨j, t, rfl⟩ := genLoop_mem g _ _ limit.toNat 0 _ item hitem
  rw [generateItem_vector_length] at hk
  have hcb := genCenters_bounds g hf dimensions.toNat sampleClusters.length 0
  obtain ⟨e, h1, h2, h3, h4, h5⟩ :=
    generateItem_vector_form g hf (clusterCentersGen g dimensions.toNat 0).1 hcb
      dimensions.toNat j t k hk
  simp only [primaryCenterRow]
  refine ⟨e, h1, le_of_lt h2, h4, h5, h3, ?_, ?_⟩
  · rw [h3]; linarith
  · rw [h3]; linarith

/-- Witness for claim C7 at count 1, dimensionality 3, all-zero draws. -/
theorem generator_vector_noise_bounds_witness :
    FloatsOk g0 ∧ 0 ≤ (1 : Int) ∧ 0 ≤ (3 : Int) ∧
    (∃ out, generateVectorData g0 1 3 = some out ∧
      ∀ item ∈ out, ∀ k, k < item.vector.length →
        ∃ e, -(1/4 : ℚ) ≤ e ∧ e ≤ 1/4 ∧
          -1 ≤ (primaryCenterRow g0 3 item).getD k 0 ∧
          (primaryCenterRow g0 3 item).getD k 0 ≤ 1 ∧
          item.vector.getD k 0 = (primaryCenterRow g0 3 item).getD k 0 + e ∧
          -(5/4 : ℚ) ≤ item.vector.getD k 0 ∧ item.vector.getD k 0 ≤ 5/4) :=
  ⟨fun i => ⟨le_refl 0, by norm_num [g0]⟩, by norm_num, by norm_num,
    generator_vector_noise_bounds g0 1 3 (fun i => ⟨le_refl 0, by norm_num [g0]⟩)
      (by norm_num) (by norm_num)⟩

/-- Claim C9: at every item-generation step the lookup of the primary
cluster (the first drawn cluster name) in the fixed vocabulary succeeds
with an in-bounds index, so the `-1` / not-found branch that would make the
center indexing panic is unreachable. -/
theorem generator_primary_lookup (g : Rng) (s : Nat) :
    ∃ i : Nat,
      findClusterIdx ((getRandomItems g s sampleClusters 1 3).1.getD 0 noStr) =
        (i : Int) ∧
      i < sampleClusters.length := by
  have hspec := getRandomItems_spec g s sampleClusters 1 3 (by decide) (by decide)
    (by norm_num) (by decide)
  have hlen : 1 ≤ (getRandomItems g s sampleClusters 1 3).1.length := hspec.1
  have hmem : (getRandomItems g s sampleClusters 1 3).1.getD 0 noStr ∈
      (getRandomItems g s sampleClusters 1 3).1 := by
    rw [List.getD_eq_getElem _ _ (by omega)]
    exact List.getElem_mem (by omega)
  exact findClusterIdx_of_mem _ (hspec.2.2.2 _ hmem)

/-! ## HTTP handler parameter parsing (go-backend/main.go, `handleVectorData`) -/

/-- The digit loop of `strconv.Atoi`: accumulate base-10 digits, fail on
any non-digit character. -/
def digitsVal : List Char → Nat → Option Nat
  | [], acc => some acc
  | c :: cs, acc =>
    if c.isDigit then digitsVal cs (acc * 10 + (c.toNat - 48)) else none

/-- `strconv.Atoi`: an optional sign followed by at least one digit;
anything else is an error (`none`).  Overflow of the machine `int` is
elided: the claims never involve values near the 64-bit bound. -/
def atoi (str : String) : Option Int :=
  match str.toList with
  | [] => none
  | c :: rest =>
    if c = '+' then
      match rest with
      | [] => none
      | _ => (digitsVal rest 0).map (fun n => (n : Int))
    else if c = '-' then
      match rest with
      | [] => none
      | _ => (digitsVal rest 0).map (fun n => -(n : Int))
    else (digitsVal (c :: rest) 0).map (fun n => (n : Int))

/-- The `limit` parsing of `handleVectorData`: default 500, overridden only
when the query value parses to a positive integer. -/
def parseLimit (limitStr : String) : Int :=
  if limitStr = noStr then 500
  else
    match atoi limitStr with
    | some parsedLimit => if parsedLimit > 0 then parsedLimit else 500
    | none => 500

/-- The `dimensions` parsing of `handleVectorData`: default 100, overridden
only when the query value parses to a positive integer. -/
def parseDimensions (dimensionsStr : String) : Int :=
  if dimensionsStr = noStr then 100
  else
    match atoi dimensionsStr with
    | some parsedDimensions => if parsedDimensions > 0 then parsedDimensions else 100
    | none => 100

/-- The empty string never parses. -/
theorem atoi_empty : atoi noStr = none := rfl

/-- Claim C10: for every pair of query-parameter strings, a missing (empty),
non-numeric, or non-positive `limit` value yields the default limit 500,
and a missing, non-numeric, or non-positive `dimensions` value yields the
default 100; the parsing functions are total, so no error is returned. -/
theorem handler_param_defaults (limitStr dimensionsStr : String)
    (hl : limitStr = noStr ∨ atoi limitStr = none ∨
      ∃ v, atoi limitStr = some v ∧ v ≤ 0)
    (hd : dimensionsStr = noStr ∨ atoi dimensionsStr = none ∨
      ∃ v, atoi dimensionsStr = some v ∧ v ≤ 0) :
    parseLimit limitStr = 500 ∧ parseDimensions dimensionsStr = 100 := by
  constructor
  · rcases hl with h | h | ⟨v, hv, hvle⟩
    · rw [parseLimit, if_pos h]
    · by_cases he : limitStr = noStr
      · rw [parseLimit, if_pos he]
      · rw [parseLimit, if_neg he, h]
    · have he : limitStr ≠ noStr := by
        intro h0
        rw [h0, atoi_empty] at hv
        exact Option.noConfusion hv
      rw [parseLimit, if_neg he, hv]
      simp only
      rw [if_neg (by omega)]
  · rcases hd with h | h | ⟨v, hv, hvle⟩
    · rw [parseDimensions, if_pos h]
    · by_cases he : dimensionsStr = noStr
      · rw [parseDimensions, if_pos he]
      · rw [parseDimensions, if_neg he, h]
    · have he : dimensionsStr ≠ noStr := by
        intro h0
        rw [h0, atoi_empty] at hv
        exact Option.noConfusion hv
      rw [parseDimensions, if_neg he, hv]
      simp only
      rw [if_neg (by omega)]

/-- Witness for claim C10 at the non-numeric limit string and the
non-positive dimensions string. -/
theorem handler_param_defaults_witness :
    ("abc" = noStr ∨ atoi "abc" = none ∨ ∃ v, atoi "abc" = some v ∧ v ≤ 0) ∧
    ("-7" = noStr ∨ atoi "-7" = none ∨ ∃ v, atoi "-7" = some v ∧ v ≤ 0) ∧
    (parseLimit "abc" = 500 ∧ parseDimensions "-7" = 100) :=
  ⟨Or.inr (Or.inl (by decide)),
   Or.inr (Or.inr ⟨-7, by decide, by norm_num⟩),
   handler_param_defaults "abc" "-7" (Or.inr (Or.inl (by decide)))
     (Or.inr (Or.inr ⟨-7, by decide, by norm_num⟩))⟩

end AvsVisualizer
